import Mathlib

/-!
Shallow embedding of the appointment-lifecycle core of the CRM backend
(`app/models/appointment_model.py`, `app/schemas/appointment_schema.py`,
`app/crud/appointment_crud.py`, `app/services/appointment_service.py`).

Modelling conventions:
* timestamps (UTC instants) are integers counting seconds; calendar dates are
  integer day numbers, day `d` covering seconds `[d * 86400, (d+1) * 86400)`;
  a timezone-naive input is interpreted as the same UTC instant, so the
  `replace(tzinfo=utc)` normalisation of the schemas is the identity here;
* record ids are natural numbers standing in for UUIDs;
* the persistence store is a list of records; every fallible service
  operation returns the store (unchanged on failure) together with an
  `Except` result, which mirrors "raise before any write";
* Python dicts produced by `model_dump(exclude_unset=True, exclude_none=True)`
  are modelled by an `UpdateDict` of `Option` fields, `none` meaning the key
  is absent.
-/

/-- `AppointmentStatus` enum (`app/models/appointment_model.py`). -/
inductive AppointmentStatus where
  | pending
  | upcoming
  | completed
  | cancelled
  | rejected
  deriving DecidableEq, Repr

/-- The value string of each status member, as rendered into error details. -/
def AppointmentStatus.toStr : AppointmentStatus → String
  | .pending => "pending"
  | .upcoming => "upcoming"
  | .completed => "completed"
  | .cancelled => "cancelled"
  | .rejected => "rejected"

/-- The `Appointment` row (`app/models/appointment_model.py`). -/
structure Appointment where
  id : Nat
  name : String
  email : String
  contact : String
  status : AppointmentStatus
  notes : Option String
  cancellation_reason : Option String
  appointment_date : Option Int
  created_at : Int
  updated_at : Int
  deriving DecidableEq, Repr

/-- Error taxonomy raised by the service layer (`app/core/exceptions.py`,
seen through its uses in the service and schemas). -/
inductive AppError where
  | resourceNotFound (detail : String)
  | badRequest (detail : String)
  | validationError (detail : String)
  deriving DecidableEq, Repr

deriving instance DecidableEq for Except

/-- An update payload dict: the keys that can ever occur in the
`fields_to_update` dict a transition hands to `AppointmentRepository.update`.
`none` means the key is absent from the dict. -/
structure UpdateDict where
  appointment_date : Option Int := none
  notes : Option String := none
  cancellation_reason : Option String := none
  status : Option AppointmentStatus := none
  created_at : Option Int := none
  updated_at : Option Int := none
  deriving DecidableEq, Repr

/-- The `for ts_field in {"created_at", "updated_at"}: update_dict.pop(...)`
loop every transition runs before calling the repository. -/
def stripTimestamps (d : UpdateDict) : UpdateDict :=
  { d with created_at := none, updated_at := none }

/-- `AppointmentRepository.update` (`app/crud/appointment_crud.py`):
`setattr` for each key present in the dict, then commit.  The `updated_at`
column carries `onupdate=func.now()`, so on commit it is refreshed to `now`
unless the dict supplied an explicit value.  The ISO-string re-parsing branch
of the source is value-preserving here because timestamps are already
instants. -/
def AppointmentRepository.update (now : Int) (a : Appointment) (d : UpdateDict) :
    Appointment :=
  { a with
    appointment_date :=
      match d.appointment_date with
      | some v => some v
      | none => a.appointment_date,
    notes :=
      match d.notes with
      | some v => some v
      | none => a.notes,
    cancellation_reason :=
      match d.cancellation_reason with
      | some v => some v
      | none => a.cancellation_reason,
    status :=
      match d.status with
      | some v => v
      | none => a.status,
    created_at :=
      match d.created_at with
      | some v => v
      | none => a.created_at,
    updated_at :=
      match d.updated_at with
      | some v => v
      | none => now }

/-- The persistence store: the `appointments` table. -/
abbrev Store := List Appointment

/-- `AppointmentRepository.get`: point lookup by primary key. -/
def getById (s : Store) (id : Nat) : Option Appointment :=
  s.find? (fun a => a.id == id)

/-- `AppointmentService.get_appointment_by_id`: load by id, raising
`ResourceNotFound` when absent. -/
def get_appointment_by_id (s : Store) (id : Nat) : Except AppError Appointment :=
  match getById s id with
  | none =>
      .error (.resourceNotFound
        ("Appointment with Id " ++ toString id ++ " not Found."))
  | some a => .ok a

/-- Committing a mutated row: the row with the same id is replaced. -/
def replaceById (s : Store) (a' : Appointment) : Store :=
  s.map (fun a => if a.id == a'.id then a' else a)

/-- Shared body of the three `validate_appointment_date` field validators
(`app/schemas/appointment_schema.py`): raise `ValidationError` when the
supplied instant is strictly earlier than the current time, else accept it
unchanged.  (The tz-naive branch `v.replace(tzinfo=timezone.utc)` is the
identity under the instant model.) -/
def validateFutureDate (now v : Int) : Except AppError Int :=
  if v < now then
    .error (.validationError ("Appointment date must be in the future"))
  else
    .ok v

/-- `CreateAdminAppointment.validate_appointment_date`. -/
def CreateAdminAppointment.validate_appointment_date (now v : Int) :
    Except AppError Int :=
  validateFutureDate now v

/-- `ConfirmAppointment.validate_appointment_date`. -/
def ConfirmAppointment.validate_appointment_date (now v : Int) :
    Except AppError Int :=
  validateFutureDate now v

/-- `RescheduleAppointment.validate_appointment_date`. -/
def RescheduleAppointment.validate_appointment_date (now v : Int) :
    Except AppError Int :=
  validateFutureDate now v

/-- The maximal non-whitespace runs (tokens) of a character list, with an
accumulator for the token being read: the behaviour of Python's
`str.split()` with no separator (modelled over ASCII whitespace). -/
def wsTokensAux : List Char → List Char → List (List Char)
  | [], acc => if acc.isEmpty then [] else [acc.reverse]
  | c :: cs, acc =>
      if c.isWhitespace then
        if acc.isEmpty then wsTokensAux cs []
        else acc.reverse :: wsTokensAux cs []
      else wsTokensAux cs (c :: acc)

/-- Joining tokens with single spaces: Python's `" ".join(tokens)`. -/
def joinWithSpace : List (List Char) → List Char
  | [] => []
  | [t] => t
  | t :: ts => t ++ ' ' :: joinWithSpace ts

/-- Python's `" ".join(v.strip().split())`: split on whitespace runs,
drop empties, re-join with single spaces. -/
def collapseWs (v : String) : String :=
  String.mk (joinWithSpace (wsTokensAux v.data []))

/-- The validation pipeline of `CancelAppointment.cancellation_reason`
(`app/schemas/appointment_schema.py`): pydantic checks the `Field`
constraints `min_length=3, max_length=500` on the raw value first, then the
`clean_reason` after-validator collapses whitespace and rejects an
empty result. -/
def CancelAppointment.validate_cancellation_reason (raw : String) :
    Except AppError String :=
  if raw.length < 3 then
    .error (.validationError ("String should have at least 3 characters"))
  else if 500 < raw.length then
    .error (.validationError ("String should have at most 500 characters"))
  else
    let v := collapseWs raw
    if v = "" then
      .error (.validationError ("Cancellation reason cannot be empty"))
    else
      .ok v

/-- Validated `ConfirmAppointment` payload. -/
structure ConfirmAppointment where
  appointment_date : Int
  notes : Option String := none
  deriving DecidableEq, Repr

/-- `model_dump(exclude_unset=True, exclude_none=True)` of a
`ConfirmAppointment`. -/
def ConfirmAppointment.toUpdateDict (p : ConfirmAppointment) : UpdateDict :=
  { appointment_date := some p.appointment_date, notes := p.notes }

/-- Validated `RescheduleAppointment` payload. -/
structure RescheduleAppointment where
  appointment_date : Int
  deriving DecidableEq, Repr

/-- `model_dump(exclude_unset=True, exclude_none=True)` of a
`RescheduleAppointment`. -/
def RescheduleAppointment.toUpdateDict (p : RescheduleAppointment) : UpdateDict :=
  { appointment_date := some p.appointment_date }

/-- Validated `CancelAppointment` payload (used by cancel and reject). -/
structure CancelAppointment where
  cancellation_reason : String
  deriving DecidableEq, Repr

/-- `model_dump(exclude_unset=True, exclude_none=True, mode="json")` of a
`CancelAppointment`. -/
def CancelAppointment.toUpdateDict (p : CancelAppointment) : UpdateDict :=
  { cancellation_reason := some p.cancellation_reason }

/-- Validated `CompleteAppointment` payload. -/
structure CompleteAppointment where
  notes : Option String := none
  deriving DecidableEq, Repr

/-- `model_dump(exclude_unset=True, exclude_none=True, mode="json")` of a
`CompleteAppointment`. -/
def CompleteAppointment.toUpdateDict (p : CompleteAppointment) : UpdateDict :=
  { notes := p.notes }

/-- Validated `CreatePublicAppointment` payload. -/
structure CreatePublicAppointment where
  name : String
  email : String
  contact : String
  notes : Option String := none
  deriving DecidableEq, Repr

/-- Validated `CreateAdminAppointment` payload. -/
structure CreateAdminAppointment where
  name : String
  email : String
  contact : String
  appointment_date : Int
  notes : Option String := none
  deriving DecidableEq, Repr

/-- `AppointmentService.create_pending_request`: new record with
`status=PENDING`, no appointment date, system timestamps set to now. -/
def create_pending_request (now : Int) (newId : Nat) (p : CreatePublicAppointment) :
    Appointment :=
  { id := newId
    name := p.name
    email := p.email
    contact := p.contact
    status := .pending
    notes := p.notes
    cancellation_reason := none
    appointment_date := none
    created_at := now
    updated_at := now }

/-- `AppointmentService.schedule_appointment`: staff-created record with
`status=UPCOMING` and the (validated, future) appointment date. -/
def schedule_appointment (now : Int) (newId : Nat) (p : CreateAdminAppointment) :
    Appointment :=
  { id := newId
    name := p.name
    email := p.email
    contact := p.contact
    status := .upcoming
    notes := p.notes
    cancellation_reason := none
    appointment_date := some p.appointment_date
    created_at := now
    updated_at := now }

/-- `AppointmentService.confirm_appointment`: load, require `PENDING`
(else BadRequest naming the current status), set `status=UPCOMING`, strip
timestamp keys, persist. -/
def confirm_appointment (now : Int) (s : Store) (id : Nat) (p : ConfirmAppointment) :
    Store × Except AppError Appointment :=
  match get_appointment_by_id s id with
  | .error e => (s, .error e)
  | .ok a =>
      if a.status ≠ .pending then
        (s, .error (.badRequest
          ("Cannot confirm appointment " ++ toString id ++
            ". Current status: " ++ a.status.toStr)))
      else
        let d := stripTimestamps
          { p.toUpdateDict with status := some .upcoming }
        let a' := AppointmentRepository.update now a d
        (replaceById s a', .ok a')

/-- `AppointmentService.reschedule_appointment`: load (NotFound if absent),
no status precondition, strip timestamp keys, persist the new date. -/
def reschedule_appointment (now : Int) (s : Store) (id : Nat)
    (p : RescheduleAppointment) : Store × Except AppError Appointment :=
  match get_appointment_by_id s id with
  | .error e => (s, .error e)
  | .ok a =>
      let d := stripTimestamps p.toUpdateDict
      let a' := AppointmentRepository.update now a d
      (replaceById s a', .ok a')

/-- `AppointmentService.cancel_appointment`: load, require `UPCOMING`
(else BadRequest naming the current status), set `status=CANCELLED` and the
cancellation reason, strip timestamp keys, persist. -/
def cancel_appointment (now : Int) (s : Store) (id : Nat) (p : CancelAppointment) :
    Store × Except AppError Appointment :=
  match get_appointment_by_id s id with
  | .error e => (s, .error e)
  | .ok a =>
      if a.status ≠ .upcoming then
        (s, .error (.badRequest
          ("Cannot cancel appointment " ++ toString id ++
            ". Current status: " ++ a.status.toStr)))
      else
        let d := stripTimestamps
          { p.toUpdateDict with status := some .cancelled }
        let a' := AppointmentRepository.update now a d
        (replaceById s a', .ok a')

/-- `AppointmentService.reject_appointment`: load, require `PENDING`
(else BadRequest naming the current status), set `status=REJECTED` and the
cancellation reason, strip timestamp keys, persist. -/
def reject_appointment (now : Int) (s : Store) (id : Nat) (p : CancelAppointment) :
    Store × Except AppError Appointment :=
  match get_appointment_by_id s id with
  | .error e => (s, .error e)
  | .ok a =>
      if a.status ≠ .pending then
        (s, .error (.badRequest
          ("Cannot reject appointment " ++ toString id ++
            ". Current status: " ++ a.status.toStr)))
      else
        let d := stripTimestamps
          { p.toUpdateDict with status := some .rejected }
        let a' := AppointmentRepository.update now a d
        (replaceById s a', .ok a')

/-- `AppointmentService.complete_appointment`: load, require `UPCOMING`
(else BadRequest naming the current status), set `status=COMPLETED`, strip
timestamp keys, persist. -/
def complete_appointment (now : Int) (s : Store) (id : Nat)
    (p : CompleteAppointment) : Store × Except AppError Appointment :=
  match get_appointment_by_id s id with
  | .error e => (s, .error e)
  | .ok a =>
      if a.status ≠ .upcoming then
        (s, .error (.badRequest
          ("Cannot complete appointment " ++ toString id ++
            ". Current status: " ++ a.status.toStr)))
      else
        let d := stripTimestamps
          { p.toUpdateDict with status := some .completed }
        let a' := AppointmentRepository.update now a d
        (replaceById s a', .ok a')

/-- `AppointmentService.delete_appointment`: hard delete, NotFound if the id
is absent, no status constraint. -/
def delete_appointment (s : Store) (id : Nat) : Store × Except AppError Unit :=
  match getById s id with
  | none =>
      (s, .error (.resourceNotFound
        ("Appointment with ID " ++ toString id ++ " not Found.")))
  | some _ => (s.filter (fun a => a.id != id), .ok ())

/-- SQL `LIKE` pattern matching over already case-folded character lists:
`%` matches any (possibly empty) run, `_` matches exactly one character,
anything else matches itself. -/
def likeMatch : List Char → List Char → Bool
  | [], [] => true
  | [], _ :: _ => false
  | p :: ps, cs =>
      if p = '%' then
        likeMatch ps cs ||
          (match cs with
           | [] => false
           | _ :: cs' => likeMatch (p :: ps) cs')
      else
        match cs with
        | [] => false
        | c :: cs' => (if p = '_' then true else p == c) && likeMatch ps cs'
  termination_by ps cs => (cs.length, ps.length)

/-- ASCII case folding of a character list (the `lower()` both sides of an
SQL `ILIKE` applies). -/
def lowerStr (cs : List Char) : List Char :=
  cs.map Char.toLower

/-- `column.ilike(pattern)`: case-insensitive `LIKE`. -/
def ilike (value pattern : String) : Bool :=
  likeMatch (lowerStr pattern.toList) (lowerStr value.toList)

/-- `search_term = f"%{filters['search']}%"` in
`AppointmentRepository._apply_filters`. -/
def searchPattern (q : String) : String :=
  "%" ++ q ++ "%"

/-- `AppointmentSearchParams` (`app/schemas/appointment_schema.py`); via the
endpoint's `model_dump(exclude_none=True)` it is also the filter dict the
repository receives, so it doubles as the `filters` argument.  Date fields
are calendar-day numbers. -/
structure AppointmentSearchParams where
  search : Option String := none
  name : Option String := none
  contact : Option String := none
  email : Option String := none
  status : Option AppointmentStatus := none
  start_date : Option Int := none
  end_date : Option Int := none
  created_after : Option Int := none
  created_before : Option Int := none
  updated_after : Option Int := none
  updated_before : Option Int := none
  deriving DecidableEq, Repr

/-- Midnight (in seconds) opening calendar day `d`: the instant a bare SQL
`date` coerces to when compared against a timestamp column. -/
def dayStart (d : Int) : Int :=
  d * 86400

/-- `_apply_filters`, status condition: `Appointment.status == filters["status"]`
(guarded by dict-membership and truthiness; a present status value is always
truthy). -/
def filterStatus (f : AppointmentSearchParams) (a : Appointment) : Bool :=
  match f.status with
  | none => true
  | some st => a.status == st

/-- `_apply_filters`: `Appointment.appointment_date >= filters["start_date"]`.
A SQL comparison against a NULL `appointment_date` is not satisfied. -/
def filterStartDate (f : AppointmentSearchParams) (a : Appointment) : Bool :=
  match f.start_date with
  | none => true
  | some d =>
      match a.appointment_date with
      | none => false
      | some ts => dayStart d ≤ ts

/-- `_apply_filters`: `Appointment.appointment_date < end_date + timedelta(days=1)`. -/
def filterEndDate (f : AppointmentSearchParams) (a : Appointment) : Bool :=
  match f.end_date with
  | none => true
  | some d =>
      match a.appointment_date with
      | none => false
      | some ts => ts < dayStart (d + 1)

/-- `_apply_filters`: `Appointment.created_at >= filters["created_after"]`. -/
def filterCreatedAfter (f : AppointmentSearchParams) (a : Appointment) : Bool :=
  match f.created_after with
  | none => true
  | some d => dayStart d ≤ a.created_at

/-- `_apply_filters`: `Appointment.created_at < created_before + timedelta(days=1)`. -/
def filterCreatedBefore (f : AppointmentSearchParams) (a : Appointment) : Bool :=
  match f.created_before with
  | none => true
  | some d => a.created_at < dayStart (d + 1)

/-- `_apply_filters`: `Appointment.updated_at >= filters["updated_after"]`. -/
def filterUpdatedAfter (f : AppointmentSearchParams) (a : Appointment) : Bool :=
  match f.updated_after with
  | none => true
  | some d => dayStart d ≤ a.updated_at

/-- `_apply_filters`: `Appointment.updated_at < updated_before + timedelta(days=1)`. -/
def filterUpdatedBefore (f : AppointmentSearchParams) (a : Appointment) : Bool :=
  match f.updated_before with
  | none => true
  | some d => a.updated_at < dayStart (d + 1)

/-- `_apply_filters`: exact-match condition on `name` (a present but empty
string is falsy in Python, so the condition is skipped). -/
def filterName (f : AppointmentSearchParams) (a : Appointment) : Bool :=
  match f.name with
  | none => true
  | some n => if n = "" then true else a.name == n

/-- `_apply_filters`: exact-match condition on `contact`. -/
def filterContact (f : AppointmentSearchParams) (a : Appointment) : Bool :=
  match f.contact with
  | none => true
  | some c => if c = "" then true else a.contact == c

/-- `_apply_filters`: exact-match condition on `email`. -/
def filterEmail (f : AppointmentSearchParams) (a : Appointment) : Bool :=
  match f.email with
  | none => true
  | some e => if e = "" then true else a.email == e

/-- `_apply_filters`: fuzzy search, `ilike` of `%search%` OR'd across
`name`, `contact`, `email`. -/
def filterSearch (f : AppointmentSearchParams) (a : Appointment) : Bool :=
  match f.search with
  | none => true
  | some q =>
      if q = "" then true
      else
        ilike a.name (searchPattern q) || ilike a.contact (searchPattern q) ||
          ilike a.email (searchPattern q)

/-- `AppointmentRepository._apply_filters`: the conjunction (`and_`) of every
supplied condition. -/
def matchesFilters (f : AppointmentSearchParams) (a : Appointment) : Bool :=
  filterStatus f a && filterStartDate f a && filterEndDate f a &&
    filterCreatedAfter f a && filterCreatedBefore f a &&
    filterUpdatedAfter f a && filterUpdatedBefore f a &&
    filterName f a && filterContact f a && filterEmail f a && filterSearch f a

/-- A sort key value: the typed content of the column picked by `order_by`. -/
inductive OrderKey where
  | natKey (n : Nat)
  | intKey (i : Int)
  | optIntKey (i : Option Int)
  | strKey (s : String)
  | statusKey (st : AppointmentStatus)
  | optStrKey (s : Option String)
  deriving DecidableEq, Repr

/-- A total comparison on sort keys (columns compared in practice always have
the same shape; the cross-shape order is arbitrary but fixed). -/
def OrderKey.leb : OrderKey → OrderKey → Bool
  | .natKey m, .natKey n => m ≤ n
  | .intKey i, .intKey j => i ≤ j
  | .optIntKey i, .optIntKey j =>
      match i, j with
      | none, _ => true
      | some _, none => false
      | some x, some y => x ≤ y
  | .strKey s, .strKey t => s ≤ t
  | .statusKey s, .statusKey t => s.toStr ≤ t.toStr
  | .optStrKey s, .optStrKey t =>
      match s, t with
      | none, _ => true
      | some _, none => false
      | some x, some y => x ≤ y
  | .natKey _, _ => true
  | _, .natKey _ => false
  | .intKey _, _ => true
  | _, .intKey _ => false
  | .optIntKey _, _ => true
  | _, .optIntKey _ => false
  | .strKey _, _ => true
  | _, .strKey _ => false
  | .statusKey _, _ => true
  | _, .statusKey _ => false

/-- `getattr(self.model, order_by, self.model.created_at)`: the column named
by `order_by`, falling back to `created_at` for an unrecognized name. -/
def orderColumn (field : String) (a : Appointment) : OrderKey :=
  if field = "id" then .natKey a.id
  else if field = "name" then .strKey a.name
  else if field = "email" then .strKey a.email
  else if field = "contact" then .strKey a.contact
  else if field = "status" then .statusKey a.status
  else if field = "notes" then .optStrKey a.notes
  else if field = "cancellation_reason" then .optStrKey a.cancellation_reason
  else if field = "appointment_date" then .optIntKey a.appointment_date
  else if field = "updated_at" then .intKey a.updated_at
  else .intKey a.created_at

/-- `AppointmentRepository._apply_ordering`: sort ascending or descending by
the selected column. -/
def applyOrdering (l : List Appointment) (order_by : String) (order_desc : Bool) :
    List Appointment :=
  if order_desc then
    l.insertionSort (fun a b => OrderKey.leb (orderColumn order_by b) (orderColumn order_by a))
  else
    l.insertionSort (fun a b => OrderKey.leb (orderColumn order_by a) (orderColumn order_by b))

/-- The query after `_apply_filters` (and before ordering or pagination):
the subset of the store satisfying every supplied filter. -/
def filteredSet (s : Store) (filters : Option AppointmentSearchParams) : Store :=
  match filters with
  | none => s
  | some f => s.filter (fun a => matchesFilters f a)

/-- `AppointmentRepository.get_all`: filter, count the filtered set, order,
then paginate with `offset(skip).limit(limit)`; returns the page and the
total count. -/
def AppointmentRepository.get_all (s : Store) (skip limit : Nat)
    (filters : Option AppointmentSearchParams) (order_by : String)
    (order_desc : Bool) : List Appointment × Nat :=
  let q := filteredSet s filters
  let total := q.length
  let ordered := applyOrdering q order_by order_desc
  ((ordered.drop skip).take limit, total)

/-- `AppointmentListResponse` (pagination metadata as built by the service). -/
structure AppointmentListResponse where
  items : List Appointment
  total : Nat
  page : Nat
  pages : Nat
  size : Nat
  deriving DecidableEq, Repr

/-- `AppointmentService.get_all_appointments`: validate `skip`/`limit`
before touching the repository, fetch, then compute
`page = skip // limit + 1` and `pages = (total + limit - 1) // limit`. -/
def get_all_appointments (s : Store) (skip limit : Int)
    (filters : Option AppointmentSearchParams) (order_by : String)
    (order_desc : Bool) : Except AppError AppointmentListResponse :=
  if skip < 0 then
    .error (.validationError ("Skip parameter must be non-negative"))
  else if limit ≤ 0 ∨ 100 < limit then
    .error (.validationError ("Limit must be between 1 and 100"))
  else
    let r := AppointmentRepository.get_all s skip.toNat limit.toNat filters
      order_by order_desc
    .ok
      { items := r.1
        total := r.2
        page := skip.toNat / limit.toNat + 1
        pages := (r.2 + limit.toNat - 1) / limit.toNat
        size := limit.toNat }

/-- Truthy test of the `created_after > created_before` guard in
`AppointmentSearchParams.validate_date_range`. -/
def createdPairBad (p : AppointmentSearchParams) : Bool :=
  match p.created_after, p.created_before with
  | some ca, some cb => cb < ca
  | _, _ => false

/-- Truthy test of the `updated_after > updated_before` guard in
`AppointmentSearchParams.validate_date_range`. -/
def updatedPairBad (p : AppointmentSearchParams) : Bool :=
  match p.updated_after, p.updated_before with
  | some ua, some ub => ub < ua
  | _, _ => false

/-- `AppointmentSearchParams.validate_date_range` (model validator): reject
an inverted `created_after`/`created_before` pair, then an inverted
`updated_after`/`updated_before` pair; anything else passes through.  (No
check involves `start_date`/`end_date`.) -/
def AppointmentSearchParams.validate_date_range (p : AppointmentSearchParams) :
    Except AppError AppointmentSearchParams :=
  if createdPairBad p then
    .error (.validationError ("created_after must be before created_before"))
  else if updatedPairBad p then
    .error (.validationError ("updated_after must be before updated_before"))
  else
    .ok p

/-- The stores reachable through the public operations: both creation entry
points (with their schema-validated payloads), the five lifecycle
transitions, and the administrative hard delete.  `vnow` is the clock value
at schema-validation time, `now` the one at persistence time. -/
inductive ReachableStore : Store → Prop
  | empty : ReachableStore []
  | createPending (s : Store) (now : Int) (newId : Nat)
      (p : CreatePublicAppointment) (h : ReachableStore s) :
      ReachableStore (create_pending_request now newId p :: s)
  | schedule (s : Store) (vnow now : Int) (newId : Nat)
      (p : CreateAdminAppointment)
      (hv : CreateAdminAppointment.validate_appointment_date vnow
        p.appointment_date = .ok p.appointment_date)
      (h : ReachableStore s) :
      ReachableStore (schedule_appointment now newId p :: s)
  | confirm (s s' : Store) (vnow now : Int) (id : Nat) (p : ConfirmAppointment)
      (a' : Appointment)
      (hv : ConfirmAppointment.validate_appointment_date vnow
        p.appointment_date = .ok p.appointment_date)
      (h : ReachableStore s)
      (hok : confirm_appointment now s id p = (s', .ok a')) :
      ReachableStore s'
  | reschedule (s s' : Store) (vnow now : Int) (id : Nat)
      (p : RescheduleAppointment) (a' : Appointment)
      (hv : RescheduleAppointment.validate_appointment_date vnow
        p.appointment_date = .ok p.appointment_date)
      (h : ReachableStore s)
      (hok : reschedule_appointment now s id p = (s', .ok a')) :
      ReachableStore s'
  | cancel (s s' : Store) (now : Int) (id : Nat) (p : CancelAppointment)
      (a' : Appointment) (raw : String)
      (hv : CancelAppointment.validate_cancellation_reason raw =
        .ok p.cancellation_reason)
      (h : ReachableStore s)
      (hok : cancel_appointment now s id p = (s', .ok a')) :
      ReachableStore s'
  | reject (s s' : Store) (now : Int) (id : Nat) (p : CancelAppointment)
      (a' : Appointment) (raw : String)
      (hv : CancelAppointment.validate_cancellation_reason raw =
        .ok p.cancellation_reason)
      (h : ReachableStore s)
      (hok : reject_appointment now s id p = (s', .ok a')) :
      ReachableStore s'
  | complete (s s' : Store) (now : Int) (id : Nat) (p : CompleteAppointment)
      (a' : Appointment)
      (h : ReachableStore s)
      (hok : complete_appointment now s id p = (s', .ok a')) :
      ReachableStore s'
  | del (s s' : Store) (id : Nat) (r : Except AppError Unit)
      (h : ReachableStore s)
      (hok : delete_appointment s id = (s', r)) :
      ReachableStore s'

/-- A pending request, as produced by the public entry point. -/
def sampleApptPending : Appointment :=
  { id := 1
    name := "Jane Doe"
    email := "jane@x.com"
    contact := "+1-555-0100"
    status := .pending
    notes := none
    cancellation_reason := none
    appointment_date := none
    created_at := 10
    updated_at := 10 }

/-- An upcoming (confirmed) appointment. -/
def sampleApptUpcoming : Appointment :=
  { sampleApptPending with status := .upcoming, appointment_date := some 500 }

/-- A completed appointment. -/
def sampleApptCompleted : Appointment :=
  { sampleApptPending with status := .completed, appointment_date := some 500 }

theorem getById_mem {s : Store} {id : Nat} {a : Appointment}
    (h : getById s id = some a) : a ∈ s :=
  List.mem_of_find?_eq_some h

theorem mem_replaceById {s : Store} {a' b : Appointment}
    (h : b ∈ replaceById s a') : b = a' ∨ b ∈ s := by
  simp only [replaceById, List.mem_map] at h
  obtain ⟨c, hc, hcb⟩ := h
  by_cases hid : (c.id == a'.id) = true
  · simp [hid] at hcb
    exact Or.inl hcb.symm
  · simp [hid] at hcb
    exact Or.inr (hcb ▸ hc)

theorem confirm_ok_inv {now : Int} {s s' : Store} {id : Nat}
    {p : ConfirmAppointment} {a' : Appointment}
    (h : confirm_appointment now s id p = (s', .ok a')) :
    ∃ a, getById s id = some a ∧ a.status = .pending ∧
      a' = AppointmentRepository.update now a
        (stripTimestamps { p.toUpdateDict with status := some .upcoming }) ∧
      s' = replaceById s a' := by
  unfold confirm_appointment get_appointment_by_id at h
  cases hga : getById s id with
  | none => rw [hga] at h; simp [Prod.ext_iff] at h
  | some a =>
      rw [hga] at h
      by_cases hst : a.status = .pending
      · simp [hst, Prod.ext_iff] at h
        exact ⟨a, rfl, hst, h.2.symm, by rw [← h.1, h.2]⟩
      · simp [hst, Prod.ext_iff] at h

theorem reschedule_ok_inv {now : Int} {s s' : Store} {id : Nat}
    {p : RescheduleAppointment} {a' : Appointment}
    (h : reschedule_appointment now s id p = (s', .ok a')) :
    ∃ a, getById s id = some a ∧
      a' = AppointmentRepository.update now a (stripTimestamps p.toUpdateDict) ∧
      s' = replaceById s a' := by
  unfold reschedule_appointment get_appointment_by_id at h
  cases hga : getById s id with
  | none => rw [hga] at h; simp [Prod.ext_iff] at h
  | some a =>
      rw [hga] at h
      simp [Prod.ext_iff] at h
      exact ⟨a, rfl, h.2.symm, by rw [← h.1, h.2]⟩

theorem cancel_ok_inv {now : Int} {s s' : Store} {id : Nat}
    {p : CancelAppointment} {a' : Appointment}
    (h : cancel_appointment now s id p = (s', .ok a')) :
    ∃ a, getById s id = some a ∧ a.status = .upcoming ∧
      a' = AppointmentRepository.update now a
        (stripTimestamps { p.toUpdateDict with status := some .cancelled }) ∧
      s' = replaceById s a' := by
  unfold cancel_appointment get_appointment_by_id at h
  cases hga : getById s id with
  | none => rw [hga] at h; simp [Prod.ext_iff] at h
  | some a =>
      rw [hga] at h
      by_cases hst : a.status = .upcoming
      · simp [hst, Prod.ext_iff] at h
        exact ⟨a, rfl, hst, h.2.symm, by rw [← h.1, h.2]⟩
      · simp [hst, Prod.ext_iff] at h

theorem reject_ok_inv {now : Int} {s s' : Store} {id : Nat}
    {p : CancelAppointment} {a' : Appointment}
    (h : reject_appointment now s id p = (s', .ok a')) :
    ∃ a, getById s id = some a ∧ a.status = .pending ∧
      a' = AppointmentRepository.update now a
        (stripTimestamps { p.toUpdateDict with status := some .rejected }) ∧
      s' = replaceById s a' := by
  unfold reject_appointment get_appointment_by_id at h
  cases hga : getById s id with
  | none => rw [hga] at h; simp [Prod.ext_iff] at h
  | some a =>
      rw [hga] at h
      by_cases hst : a.status = .pending
      · simp [hst, Prod.ext_iff] at h
        exact ⟨a, rfl, hst, h.2.symm, by rw [← h.1, h.2]⟩
      · simp [hst, Prod.ext_iff] at h

theorem complete_ok_inv {now : Int} {s s' : Store} {id : Nat}
    {p : CompleteAppointment} {a' : Appointment}
    (h : complete_appointment now s id p = (s', .ok a')) :
    ∃ a, getById s id = some a ∧ a.status = .upcoming ∧
      a' = AppointmentRepository.update now a
        (stripTimestamps { p.toUpdateDict with status := some .completed }) ∧
      s' = replaceById s a' := by
  unfold complete_appointment get_appointment_by_id at h
  cases hga : getById s id with
  | none => rw [hga] at h; simp [Prod.ext_iff] at h
  | some a =>
      rw [hga] at h
      by_cases hst : a.status = .upcoming
      · simp [hst, Prod.ext_iff] at h
        exact ⟨a, rfl, hst, h.2.symm, by rw [← h.1, h.2]⟩
      · simp [hst, Prod.ext_iff] at h

theorem delete_subset {s s' : Store} {id : Nat} {r : Except AppError Unit}
    (h : delete_appointment s id = (s', r)) : ∀ b ∈ s', b ∈ s := by
  unfold delete_appointment at h
  cases hga : getById s id with
  | none =>
      rw [hga] at h
      simp [Prod.ext_iff] at h
      intro b hb
      rw [← h.1] at hb
      exact hb
  | some a =>
      rw [hga] at h
      simp [Prod.ext_iff] at h
      intro b hb
      rw [← h.1] at hb
      exact List.mem_of_mem_filter hb

/-- C1: for an id present in the store, `confirm` succeeds iff the current
status is `pending`; any other status yields a BadRequest whose detail names
the current status and leaves the store untouched; a missing id yields
ResourceNotFound with the store untouched (no write happens). -/
theorem confirm_transition_legality (now : Int) (s : Store) (id : Nat)
    (p : ConfirmAppointment) :
    (getById s id = none →
      confirm_appointment now s id p =
        (s, .error (.resourceNotFound
          ("Appointment with Id " ++ toString id ++ " not Found.")))) ∧
    (∀ a, getById s id = some a →
      ((a.status = .pending →
          ∃ a', confirm_appointment now s id p = (replaceById s a', .ok a')) ∧
        (a.status ≠ .pending →
          confirm_appointment now s id p =
            (s, .error (.badRequest
              ("Cannot confirm appointment " ++ toString id ++
                ". Current status: " ++ a.status.toStr)))))) := by
  constructor
  · intro h
    simp [confirm_appointment, get_appointment_by_id, h]
  · intro a ha
    constructor
    · intro hp
      refine ⟨AppointmentRepository.update now a
        (stripTimestamps { p.toUpdateDict with
          status := some AppointmentStatus.upcoming }), ?_⟩
      simp [confirm_appointment, get_appointment_by_id, ha, hp]
    · intro hnp
      simp [confirm_appointment, get_appointment_by_id, ha, hnp]

/-- Witness for C1 at concrete inputs: a missing id, a pending record, and a
completed record. -/
theorem confirm_transition_legality_witness :
    confirm_appointment 100 ([] : Store) 1 { appointment_date := 200 } =
      ([], .error (.resourceNotFound
        ("Appointment with Id " ++ toString 1 ++ " not Found."))) ∧
    (∃ a', confirm_appointment 100 [sampleApptPending] 1 { appointment_date := 200 } =
      (replaceById [sampleApptPending] a', .ok a')) ∧
    confirm_appointment 100 [sampleApptCompleted] 1 { appointment_date := 200 } =
      ([sampleApptCompleted], .error (.badRequest
        ("Cannot confirm appointment " ++ toString 1 ++
          ". Current status: " ++ AppointmentStatus.completed.toStr))) :=
  ⟨(confirm_transition_legality 100 [] 1 { appointment_date := 200 }).1 rfl,
    ((confirm_transition_legality 100 [sampleApptPending] 1
      { appointment_date := 200 }).2 sampleApptPending rfl).1 rfl,
    ((confirm_transition_legality 100 [sampleApptCompleted] 1
      { appointment_date := 200 }).2 sampleApptCompleted rfl).2 (by decide)⟩

/-- C2: a record whose status is `completed`, `cancelled` or `rejected`
admits no status-changing operation: confirm, cancel, reject and complete
all fail with BadRequest leaving the store untouched, and reschedule (which
has no status precondition) overwrites the date but keeps the status. -/
theorem terminal_states_frozen (now : Int) (s : Store) (id : Nat)
    (pc : ConfirmAppointment) (pl : CancelAppointment) (pr : CancelAppointment)
    (pm : CompleteAppointment) (ps : RescheduleAppointment) (a : Appointment)
    (ha : getById s id = some a)
    (hterm : a.status = .completed ∨ a.status = .cancelled ∨ a.status = .rejected) :
    (∃ m, confirm_appointment now s id pc = (s, .error (.badRequest m))) ∧
    (∃ m, cancel_appointment now s id pl = (s, .error (.badRequest m))) ∧
    (∃ m, reject_appointment now s id pr = (s, .error (.badRequest m))) ∧
    (∃ m, complete_appointment now s id pm = (s, .error (.badRequest m))) ∧
    (∃ a', reschedule_appointment now s id ps = (replaceById s a', .ok a') ∧
      a'.status = a.status ∧ a'.appointment_date = some ps.appointment_date) := by
  have hnp : a.status ≠ .pending := by
    rcases hterm with h | h | h <;> simp [h]
  have hnu : a.status ≠ .upcoming := by
    rcases hterm with h | h | h <;> simp [h]
  refine ⟨?_, ?_, ?_, ?_, ?_⟩
  · exact ⟨"Cannot confirm appointment " ++ toString id ++
      ". Current status: " ++ a.status.toStr,
      by simp [confirm_appointment, get_appointment_by_id, ha, hnp]⟩
  · exact ⟨"Cannot cancel appointment " ++ toString id ++
      ". Current status: " ++ a.status.toStr,
      by simp [cancel_appointment, get_appointment_by_id, ha, hnu]⟩
  · exact ⟨"Cannot reject appointment " ++ toString id ++
      ". Current status: " ++ a.status.toStr,
      by simp [reject_appointment, get_appointment_by_id, ha, hnp]⟩
  · exact ⟨"Cannot complete appointment " ++ toString id ++
      ". Current status: " ++ a.status.toStr,
      by simp [complete_appointment, get_appointment_by_id, ha, hnu]⟩
  · refine ⟨AppointmentRepository.update now a
      (stripTimestamps ps.toUpdateDict), ?_, ?_, ?_⟩
    · simp [reschedule_appointment, get_appointment_by_id, ha]
    · simp [AppointmentRepository.update, stripTimestamps,
        RescheduleAppointment.toUpdateDict]
    · simp [AppointmentRepository.update, stripTimestamps,
        RescheduleAppointment.toUpdateDict]

/-- Witness for C2 on a concrete completed record. -/
theorem terminal_states_frozen_witness :
    (∃ m, confirm_appointment 100 [sampleApptCompleted] 1 { appointment_date := 200 } =
      ([sampleApptCompleted], .error (.badRequest m))) ∧
    (∃ m, cancel_appointment 100 [sampleApptCompleted] 1 { cancellation_reason := "busy day" } =
      ([sampleApptCompleted], .error (.badRequest m))) ∧
    (∃ m, reject_appointment 100 [sampleApptCompleted] 1 { cancellation_reason := "busy day" } =
      ([sampleApptCompleted], .error (.badRequest m))) ∧
    (∃ m, complete_appointment 100 [sampleApptCompleted] 1 { notes := none } =
      ([sampleApptCompleted], .error (.badRequest m))) ∧
    (∃ a', reschedule_appointment 100 [sampleApptCompleted] 1 { appointment_date := 900 } =
      (replaceById [sampleApptCompleted] a', .ok a') ∧
      a'.status = sampleApptCompleted.status ∧ a'.appointment_date = some 900) :=
  terminal_states_frozen 100 [sampleApptCompleted] 1 { appointment_date := 200 }
    { cancellation_reason := "busy day" } { cancellation_reason := "busy day" }
    { notes := none } { appointment_date := 900 } sampleApptCompleted rfl
    (Or.inl rfl)

/-- Counterexample to C3 as stated: a supplied date exactly equal to the
current time is ACCEPTED by all three date validators (the code raises only
when `v < now`), while the claim says the boundary is rejected. -/
theorem future_date_boundary_cex :
    CreateAdminAppointment.validate_appointment_date 100 100 = .ok 100 ∧
    ConfirmAppointment.validate_appointment_date 100 100 = .ok 100 ∧
    RescheduleAppointment.validate_appointment_date 100 100 = .ok 100 := by
  refine ⟨?_, ?_, ?_⟩ <;> rfl

/-- C3 as amended: for confirm, reschedule and staff create, a supplied
appointment_date strictly earlier than the current time fails validation
with a ValidationError, and a date greater than or equal to the current
time (the boundary included) is accepted: the check is `v < now → raise`. -/
theorem future_date_strictly_past_rejected (now v : Int) :
    (CreateAdminAppointment.validate_appointment_date now v = .ok v ↔ now ≤ v) ∧
    (CreateAdminAppointment.validate_appointment_date now v =
      .error (.validationError ("Appointment date must be in the future")) ↔
        v < now) ∧
    (ConfirmAppointment.validate_appointment_date now v = .ok v ↔ now ≤ v) ∧
    (ConfirmAppointment.validate_appointment_date now v =
      .error (.validationError ("Appointment date must be in the future")) ↔
        v < now) ∧
    (RescheduleAppointment.validate_appointment_date now v = .ok v ↔ now ≤ v) ∧
    (RescheduleAppointment.validate_appointment_date now v =
      .error (.validationError ("Appointment date must be in the future")) ↔
        v < now) := by
  unfold CreateAdminAppointment.validate_appointment_date
    ConfirmAppointment.validate_appointment_date
    RescheduleAppointment.validate_appointment_date validateFutureDate
  by_cases h : v < now
  all_goals simp [h]
  all_goals omega

/-- Counterexample to C4 as stated: rejecting an `upcoming` appointment
fails with BadRequest (the code requires `pending`), while the claim says
reject succeeds on `pending` or `upcoming`. -/
theorem reject_requires_pending_cex :
    reject_appointment 100 [sampleApptUpcoming] 1
        { cancellation_reason := "why not" } =
      ([sampleApptUpcoming], .error (.badRequest
        ("Cannot reject appointment 1. Current status: upcoming"))) := by
  rfl

/-- C4 as amended: `reject` succeeds exactly when the current status is
`pending`, in which case the status becomes `rejected` and the supplied
cancellation_reason is persisted; any other current status (including
`upcoming`) yields BadRequest naming the current status. -/
theorem reject_requires_pending (now : Int) (s : Store) (id : Nat)
    (p : CancelAppointment) (a : Appointment) (ha : getById s id = some a) :
    (a.status = .pending →
      ∃ a', reject_appointment now s id p = (replaceById s a', .ok a') ∧
        a'.status = .rejected ∧
        a'.cancellation_reason = some p.cancellation_reason) ∧
    (a.status ≠ .pending →
      reject_appointment now s id p =
        (s, .error (.badRequest
          ("Cannot reject appointment " ++ toString id ++
            ". Current status: " ++ a.status.toStr)))) := by
  constructor
  · intro hp
    refine ⟨AppointmentRepository.update now a
      (stripTimestamps { p.toUpdateDict with
        status := some AppointmentStatus.rejected }), ?_, ?_, ?_⟩
    · simp [reject_appointment, get_appointment_by_id, ha, hp]
    · simp [AppointmentRepository.update, stripTimestamps,
        CancelAppointment.toUpdateDict]
    · simp [AppointmentRepository.update, stripTimestamps,
        CancelAppointment.toUpdateDict]
  · intro hnp
    simp [reject_appointment, get_appointment_by_id, ha, hnp]

/-- Witness for the amended C4: a concrete pending record is rejected
successfully, a concrete completed record is refused. -/
theorem reject_requires_pending_witness :
    (∃ a', reject_appointment 100 [sampleApptPending] 1
        { cancellation_reason := "no slots" } =
      (replaceById [sampleApptPending] a', .ok a') ∧
      a'.status = .rejected ∧ a'.cancellation_reason = some ("no slots")) ∧
    reject_appointment 100 [sampleApptCompleted] 1
        { cancellation_reason := "no slots" } =
      ([sampleApptCompleted], .error (.badRequest
        ("Cannot reject appointment " ++ toString 1 ++
          ". Current status: " ++ AppointmentStatus.completed.toStr))) :=
  ⟨(reject_requires_pending 100 [sampleApptPending] 1
      { cancellation_reason := "no slots" } sampleApptPending rfl).1 rfl,
    (reject_requires_pending 100 [sampleApptCompleted] 1
      { cancellation_reason := "no slots" } sampleApptCompleted rfl).2
      (by decide)⟩

/-- The record `confirm` produces from `sampleApptPending` with date 200 at
time 100. -/
def sampleConfirmed : Appointment :=
  { sampleApptPending with
    status := .upcoming
    appointment_date := some 200
    updated_at := 100 }

/-- C5: client-supplied `created_at`/`updated_at` have no effect.  The strip
step removes both keys from any update dict, so the repository update
preserves `created_at` and sets `updated_at` to the automatic refresh value;
and every one of the five transitions, on success, preserves the loaded
record's `created_at` and refreshes its `updated_at`. -/
theorem client_timestamps_discarded (now : Int) (a : Appointment)
    (d : UpdateDict) (s : Store) (id : Nat) :
    (stripTimestamps d).created_at = none ∧
    (stripTimestamps d).updated_at = none ∧
    (AppointmentRepository.update now a (stripTimestamps d)).created_at =
      a.created_at ∧
    (AppointmentRepository.update now a (stripTimestamps d)).updated_at = now ∧
    (∀ (p : ConfirmAppointment) (s' : Store) (a' b : Appointment),
      confirm_appointment now s id p = (s', .ok a') → getById s id = some b →
      a'.created_at = b.created_at ∧ a'.updated_at = now) ∧
    (∀ (p : RescheduleAppointment) (s' : Store) (a' b : Appointment),
      reschedule_appointment now s id p = (s', .ok a') → getById s id = some b →
      a'.created_at = b.created_at ∧ a'.updated_at = now) ∧
    (∀ (p : CancelAppointment) (s' : Store) (a' b : Appointment),
      cancel_appointment now s id p = (s', .ok a') → getById s id = some b →
      a'.created_at = b.created_at ∧ a'.updated_at = now) ∧
    (∀ (p : CancelAppointment) (s' : Store) (a' b : Appointment),
      reject_appointment now s id p = (s', .ok a') → getById s id = some b →
      a'.created_at = b.created_at ∧ a'.updated_at = now) ∧
    (∀ (p : CompleteAppointment) (s' : Store) (a' b : Appointment),
      complete_appointment now s id p = (s', .ok a') → getById s id = some b →
      a'.created_at = b.created_at ∧ a'.updated_at = now) := by
  refine ⟨rfl, rfl, rfl, rfl, ?_, ?_, ?_, ?_, ?_⟩
  · intro p s' a' b h hb
    obtain ⟨c, hc, _, ha', _⟩ := confirm_ok_inv h
    rw [hb] at hc
    cases hc
    subst ha'
    exact ⟨rfl, rfl⟩
  · intro p s' a' b h hb
    obtain ⟨c, hc, ha', _⟩ := reschedule_ok_inv h
    rw [hb] at hc
    cases hc
    subst ha'
    exact ⟨rfl, rfl⟩
  · intro p s' a' b h hb
    obtain ⟨c, hc, _, ha', _⟩ := cancel_ok_inv h
    rw [hb] at hc
    cases hc
    subst ha'
    exact ⟨rfl, rfl⟩
  · intro p s' a' b h hb
    obtain ⟨c, hc, _, ha', _⟩ := reject_ok_inv h
    rw [hb] at hc
    cases hc
    subst ha'
    exact ⟨rfl, rfl⟩
  · intro p s' a' b h hb
    obtain ⟨c, hc, _, ha', _⟩ := complete_ok_inv h
    rw [hb] at hc
    cases hc
    subst ha'
    exact ⟨rfl, rfl⟩

/-- Witness for C5: a dict that smuggles both timestamps is neutralised, and
a concrete successful confirm keeps `created_at` and refreshes `updated_at`. -/
theorem client_timestamps_discarded_witness :
    (AppointmentRepository.update 100 sampleApptPending
        (stripTimestamps { created_at := some 5, updated_at := some 6 })).created_at =
      sampleApptPending.created_at ∧
    sampleConfirmed.created_at = sampleApptPending.created_at ∧
    sampleConfirmed.updated_at = 100 :=
  ⟨(client_timestamps_discarded 100 sampleApptPending
      { created_at := some 5, updated_at := some 6 } [sampleApptPending] 1).2.2.1,
    (client_timestamps_discarded 100 sampleApptPending
      { created_at := some 5, updated_at := some 6 } [sampleApptPending] 1).2.2.2.2.1
      { appointment_date := 200 } [sampleConfirmed] sampleConfirmed
      sampleApptPending rfl rfl⟩

/-- C6: with valid pagination parameters, the list response satisfies
`page = skip // limit + 1`, `pages = (total + limit - 1) // limit`,
`size = limit`, at most `limit` items, and `total` counts the filtered set
ignoring skip/limit; invalid parameters fail with a ValidationError without
consulting the store. -/
theorem pagination_contract (s : Store) (filters : Option AppointmentSearchParams)
    (order_by : String) (order_desc : Bool) (skip limit : Int) :
    (0 ≤ skip → 1 ≤ limit → limit ≤ 100 →
      ∃ r, get_all_appointments s skip limit filters order_by order_desc =
          .ok r ∧
        r.page = skip.toNat / limit.toNat + 1 ∧
        r.pages = (r.total + limit.toNat - 1) / limit.toNat ∧
        r.size = limit.toNat ∧
        r.items.length ≤ limit.toNat ∧
        r.total = (filteredSet s filters).length) ∧
    ((skip < 0 ∨ limit < 1 ∨ 100 < limit) →
      (∃ m, get_all_appointments s skip limit filters order_by order_desc =
        .error (.validationError m)) ∧
      (∀ s₂, get_all_appointments s skip limit filters order_by order_desc =
        get_all_appointments s₂ skip limit filters order_by order_desc)) := by
  constructor
  · intro h1 h2 h3
    have hns : ¬ skip < 0 := by omega
    have hnl : ¬ (limit ≤ 0 ∨ 100 < limit) := by omega
    simp only [get_all_appointments, if_neg hns, if_neg hnl,
      AppointmentRepository.get_all]
    refine ⟨_, rfl, rfl, rfl, rfl, ?_, rfl⟩
    simp only [List.length_take]
    omega
  · intro h
    constructor
    · by_cases hs : skip < 0
      · exact ⟨"Skip parameter must be non-negative",
          by simp [get_all_appointments, hs]⟩
      · have hl : limit ≤ 0 ∨ 100 < limit := by omega
        exact ⟨"Limit must be between 1 and 100",
          by simp [get_all_appointments, hs, hl]⟩
    · intro s₂
      by_cases hs : skip < 0
      · simp [get_all_appointments, hs]
      · have hl : limit ≤ 0 ∨ 100 < limit := by omega
        simp [get_all_appointments, hs, hl]

/-- Witness for C6: a valid call on a one-record store and an invalid call
with negative skip. -/
theorem pagination_contract_witness :
    (∃ r, get_all_appointments [sampleApptPending] 0 50 none "created_at" true =
        .ok r ∧
      r.page = (0 : Int).toNat / (50 : Int).toNat + 1 ∧
      r.pages = (r.total + (50 : Int).toNat - 1) / (50 : Int).toNat ∧
      r.size = (50 : Int).toNat ∧
      r.items.length ≤ (50 : Int).toNat ∧
      r.total = (filteredSet [sampleApptPending] none).length) ∧
    (∃ m, get_all_appointments [sampleApptPending] (-1) 50 none "created_at" true =
      .error (.validationError m)) :=
  ⟨(pagination_contract [sampleApptPending] none "created_at" true 0 50).1
      (by decide) (by decide) (by decide),
    ((pagination_contract [sampleApptPending] none "created_at" true (-1) 50).2
      (Or.inl (by decide))).1⟩

/-- C7: in all three date-range filters the lower bound is an inclusive `>=`
against midnight of the bound day, and the upper bound admits the whole
calendar day of the bound date (`timestamp < bound_date + 1 day`): a record
at 23:59:59 of the bound day is included, any record on the next calendar
day is excluded. -/
theorem date_range_day_inclusivity (d ts : Int) (a : Appointment) :
    (filterCreatedAfter { created_after := some d } a = true ↔
      dayStart d ≤ a.created_at) ∧
    (filterCreatedBefore { created_before := some d } a = true ↔
      a.created_at < dayStart (d + 1)) ∧
    (a.created_at = dayStart (d + 1) - 1 →
      filterCreatedBefore { created_before := some d } a = true) ∧
    (dayStart (d + 1) ≤ a.created_at →
      filterCreatedBefore { created_before := some d } a = false) ∧
    (filterUpdatedAfter { updated_after := some d } a = true ↔
      dayStart d ≤ a.updated_at) ∧
    (filterUpdatedBefore { updated_before := some d } a = true ↔
      a.updated_at < dayStart (d + 1)) ∧
    (a.updated_at = dayStart (d + 1) - 1 →
      filterUpdatedBefore { updated_before := some d } a = true) ∧
    (dayStart (d + 1) ≤ a.updated_at →
      filterUpdatedBefore { updated_before := some d } a = false) ∧
    (a.appointment_date = some ts →
      ((filterStartDate { start_date := some d } a = true ↔ dayStart d ≤ ts) ∧
        (filterEndDate { end_date := some d } a = true ↔ ts < dayStart (d + 1)) ∧
        (ts = dayStart (d + 1) - 1 →
          filterEndDate { end_date := some d } a = true) ∧
        (dayStart (d + 1) ≤ ts →
          filterEndDate { end_date := some d } a = false))) := by
  refine ⟨?_, ?_, ?_, ?_, ?_, ?_, ?_, ?_, ?_⟩
  · simp [filterCreatedAfter]
  · simp [filterCreatedBefore]
  · intro h
    simp [filterCreatedBefore, dayStart] at h ⊢
    omega
  · intro h
    simp [filterCreatedBefore, dayStart] at h ⊢
    omega
  · simp [filterUpdatedAfter]
  · simp [filterUpdatedBefore]
  · intro h
    simp [filterUpdatedBefore, dayStart] at h ⊢
    omega
  · intro h
    simp [filterUpdatedBefore, dayStart] at h ⊢
    omega
  · intro hd
    refine ⟨?_, ?_, ?_, ?_⟩
    · simp [filterStartDate, hd]
    · simp [filterEndDate, hd]
    · intro h
      simp [filterEndDate, hd, dayStart] at h ⊢
      omega
    · intro h
      simp [filterEndDate, hd, dayStart] at h ⊢
      omega

/-- Witness for C7 on day 0: the last second of day 0 (86399) is inside the
`before`/`end` bound 0, the first second of day 1 (86400) is outside. -/
theorem date_range_day_inclusivity_witness :
    filterCreatedBefore { created_before := some 0 }
      { sampleApptPending with created_at := 86399 } = true ∧
    filterCreatedBefore { created_before := some 0 }
      { sampleApptPending with created_at := 86400 } = false ∧
    filterUpdatedBefore { updated_before := some 0 }
      { sampleApptPending with updated_at := 86399 } = true ∧
    filterEndDate { end_date := some 0 }
      { sampleApptPending with appointment_date := some 86399 } = true ∧
    filterEndDate { end_date := some 0 }
      { sampleApptPending with appointment_date := some 86400 } = false :=
  ⟨(date_range_day_inclusivity 0 0
      { sampleApptPending with created_at := 86399 }).2.2.1 (by decide),
    (date_range_day_inclusivity 0 0
      { sampleApptPending with created_at := 86400 }).2.2.2.1 (by decide),
    (date_range_day_inclusivity 0 0
      { sampleApptPending with updated_at := 86399 }).2.2.2.2.2.2.1 (by decide),
    ((date_range_day_inclusivity 0 86399
      { sampleApptPending with appointment_date := some 86399 }).2.2.2.2.2.2.2.2
      rfl).2.2.1 (by decide),
    ((date_range_day_inclusivity 0 86400
      { sampleApptPending with appointment_date := some 86400 }).2.2.2.2.2.2.2.2
      rfl).2.2.2 (by decide)⟩

/-- Counterexample to C8 as stated: an inverted `start_date`/`end_date` pair
passes `validate_date_range` untouched — that pair is never checked. -/
theorem range_pair_validation_cex :
    AppointmentSearchParams.validate_date_range
        { start_date := some 5, end_date := some 3 } =
      .ok { start_date := some 5, end_date := some 3 } := by
  rfl

/-- C8 as amended: only the `created_after`/`created_before` and
`updated_after`/`updated_before` pairs are validated — an inverted pair
yields a ValidationError at the schema boundary — while the
`start_date`/`end_date` pair is never checked and has no influence on the
outcome of `validate_date_range`. -/
theorem range_pair_validation (p : AppointmentSearchParams) :
    (AppointmentSearchParams.validate_date_range p = .ok p ↔
      (createdPairBad p = false ∧ updatedPairBad p = false)) ∧
    ((∃ m, AppointmentSearchParams.validate_date_range p =
        .error (.validationError m)) ↔
      (createdPairBad p = true ∨ updatedPairBad p = true)) ∧
    (∀ sd ed : Option Int,
      ((∃ q, AppointmentSearchParams.validate_date_range
          { p with start_date := sd, end_date := ed } = .ok q) ↔
        (∃ q, AppointmentSearchParams.validate_date_range p = .ok q))) := by
  have hc : ∀ sd ed : Option Int,
      createdPairBad { p with start_date := sd, end_date := ed } =
        createdPairBad p := by
    intro sd ed
    rfl
  have hu : ∀ sd ed : Option Int,
      updatedPairBad { p with start_date := sd, end_date := ed } =
        updatedPairBad p := by
    intro sd ed
    rfl
  unfold AppointmentSearchParams.validate_date_range
  refine ⟨?_, ?_, ?_⟩
  · by_cases h1 : createdPairBad p = true
    · simp [h1]
    · by_cases h2 : updatedPairBad p = true
      · simp [h1, h2]
      · simp [h1, h2]
  · by_cases h1 : createdPairBad p = true
    · simp [h1]
    · by_cases h2 : updatedPairBad p = true
      · simp [h1, h2]
      · simp [h1, h2]
  · intro sd ed
    rw [hc sd ed, hu sd ed]
    by_cases h1 : createdPairBad p = true
    · simp [h1]
    · by_cases h2 : updatedPairBad p = true
      · simp [h1, h2]
      · simp [h1, h2]

/-- Counterexample to C9's parenthetical: the 3-character minimum is checked
on the raw reason BEFORE whitespace collapsing, so the raw reason
`"ab "` (length 3) is accepted and persists as `"ab"` — only 2 characters
after collapsing. -/
theorem cancellation_reason_iff_cex :
    CancelAppointment.validate_cancellation_reason "ab " = .ok ("ab") ∧
    ¬ 3 ≤ ("ab").length := by
  constructor
  · decide
  · decide

/-- C9 as amended: in every store reachable through the public operations,
`cancellation_reason` is non-null iff the status is `cancelled` or
`rejected`; only cancel and reject write the reason, both require one whose
RAW form has 3–500 characters (the length bounds are enforced before
whitespace collapsing) and that is non-empty after collapsing, and both set
one of those two statuses. -/
theorem cancellation_reason_iff_negative_terminal :
    (∀ s, ReachableStore s → ∀ a ∈ s,
      (a.cancellation_reason.isSome = true ↔
        (a.status = .cancelled ∨ a.status = .rejected))) ∧
    (∀ raw v, CancelAppointment.validate_cancellation_reason raw = .ok v →
      v = collapseWs raw ∧ 3 ≤ raw.length ∧ raw.length ≤ 500 ∧ v ≠ "") := by
  constructor
  · intro s hreach
    induction hreach with
    | empty =>
        intro a ha
        simp at ha
    | createPending s now newId p h ih =>
        intro a ha
        rcases List.mem_cons.mp ha with rfl | ha'
        · simp [create_pending_request]
        · exact ih a ha'
    | schedule s vnow now newId p hv h ih =>
        intro a ha
        rcases List.mem_cons.mp ha with rfl | ha'
        · simp [schedule_appointment]
        · exact ih a ha'
    | confirm s s' vnow now id p a' hv h hok ih =>
        intro b hb
        obtain ⟨a, hga, hst, ha', hs'⟩ := confirm_ok_inv hok
        subst hs'
        rcases mem_replaceById hb with rfl | hb'
        · subst ha'
          have hinv := ih a (getById_mem hga)
          rw [hst] at hinv
          simp only [AppointmentRepository.update, stripTimestamps,
            ConfirmAppointment.toUpdateDict]
          simp at hinv ⊢
          simp [hinv]
        · exact ih b hb'
    | reschedule s s' vnow now id p a' hv h hok ih =>
        intro b hb
        obtain ⟨a, hga, ha', hs'⟩ := reschedule_ok_inv hok
        subst hs'
        rcases mem_replaceById hb with rfl | hb'
        · subst ha'
          have hinv := ih a (getById_mem hga)
          simpa [AppointmentRepository.update, stripTimestamps,
            RescheduleAppointment.toUpdateDict] using hinv
        · exact ih b hb'
    | cancel s s' now id p a' raw hv h hok ih =>
        intro b hb
        obtain ⟨a, hga, hst, ha', hs'⟩ := cancel_ok_inv hok
        subst hs'
        rcases mem_replaceById hb with rfl | hb'
        · subst ha'
          simp [AppointmentRepository.update, stripTimestamps,
            CancelAppointment.toUpdateDict]
        · exact ih b hb'
    | reject s s' now id p a' raw hv h hok ih =>
        intro b hb
        obtain ⟨a, hga, hst, ha', hs'⟩ := reject_ok_inv hok
        subst hs'
        rcases mem_replaceById hb with rfl | hb'
        · subst ha'
          simp [AppointmentRepository.update, stripTimestamps,
            CancelAppointment.toUpdateDict]
        · exact ih b hb'
    | complete s s' now id p a' h hok ih =>
        intro b hb
        obtain ⟨a, hga, hst, ha', hs'⟩ := complete_ok_inv hok
        subst hs'
        rcases mem_replaceById hb with rfl | hb'
        · subst ha'
          have hinv := ih a (getById_mem hga)
          rw [hst] at hinv
          simp only [AppointmentRepository.update, stripTimestamps,
            CompleteAppointment.toUpdateDict]
          simp at hinv ⊢
          simp [hinv]
        · exact ih b hb'
    | del s s' id r h hok ih =>
        intro b hb
        exact ih b (delete_subset hok b hb)
  · intro raw v hok
    unfold CancelAppointment.validate_cancellation_reason at hok
    by_cases h1 : raw.length < 3
    · simp [h1] at hok
    · simp only [h1, if_false] at hok
      by_cases h2 : 500 < raw.length
      · simp [h2] at hok
      · simp only [h2, if_false] at hok
        by_cases h3 : collapseWs raw = ""
        · simp [h3] at hok
        · simp only [h3, if_false] at hok
          have hveq : v = collapseWs raw := by
            cases hok
            rfl
          refine ⟨hveq, by omega, by omega, ?_⟩
          rw [hveq]
          exact h3

/-- Payload of a public appointment request, for the witnesses. -/
def samplePublicPayload : CreatePublicAppointment :=
  { name := "Jane Doe", email := "jane@x.com", contact := "+1-555-0100" }

/-- Witness for C9: the invariant instantiated on a concretely reachable
one-record store, and the validation facts at the reason `"busy day"`. -/
theorem cancellation_reason_iff_negative_terminal_witness :
    ((create_pending_request 10 1 samplePublicPayload).cancellation_reason.isSome
        = true ↔
      ((create_pending_request 10 1 samplePublicPayload).status = .cancelled ∨
        (create_pending_request 10 1 samplePublicPayload).status = .rejected)) ∧
    ("busy day" = collapseWs "busy day" ∧ 3 ≤ ("busy day").length ∧
      ("busy day").length ≤ 500 ∧ "busy day" ≠ "") :=
  ⟨cancellation_reason_iff_negative_terminal.1
      [create_pending_request 10 1 samplePublicPayload]
      (ReachableStore.createPending [] 10 1 samplePublicPayload
        ReachableStore.empty)
      (create_pending_request 10 1 samplePublicPayload)
      (List.mem_cons_self _ _),
    cancellation_reason_iff_negative_terminal.2 "busy day" "busy day"
      (by decide)⟩

theorem likeMatch_percentOnly (cs : List Char) : likeMatch ['%'] cs = true := by
  induction cs with
  | nil => simp [likeMatch]
  | cons c cs ih =>
      rw [likeMatch]
      simp [ih]

theorem likeMatch_percent_cons (ps : List Char) (cs : List Char) :
    likeMatch ('%' :: ps) cs = true ↔
      ∃ t₁ t₂, cs = t₁ ++ t₂ ∧ likeMatch ps t₂ = true := by
  induction cs with
  | nil =>
      rw [likeMatch]
      simp
      constructor
      · intro h
        exact ⟨[], [], ⟨rfl, rfl⟩, h⟩
      · rintro ⟨t₁, t₂, ⟨rfl, rfl⟩, h⟩
        exact h
  | cons c cs ih =>
      rw [likeMatch]
      simp only [reduceIte, Bool.or_eq_true]
      constructor
      · rintro (h | h)
        · exact ⟨[], c :: cs, rfl, h⟩
        · obtain ⟨t₁, t₂, heq, hm⟩ := ih.mp h
          exact ⟨c :: t₁, t₂, by simp [heq], hm⟩
      · rintro ⟨t₁, t₂, heq, hm⟩
        cases t₁ with
        | nil =>
            simp only [List.nil_append] at heq
            subst heq
            exact Or.inl hm
        | cons x t₁ =>
            simp only [List.cons_append, List.cons.injEq] at heq
            exact Or.inr (ih.mpr ⟨t₁, t₂, heq.2, hm⟩)

theorem likeMatch_literal_percent (s : List Char)
    (h : ∀ c ∈ s, c ≠ '%' ∧ c ≠ '_') (cs : List Char) :
    likeMatch (s ++ ['%']) cs = true ↔ ∃ r, cs = s ++ r := by
  induction s generalizing cs with
  | nil =>
      simp [likeMatch_percentOnly]
  | cons a s ih =>
      have ha := h a (List.mem_cons_self a s)
      have hs : ∀ c ∈ s, c ≠ '%' ∧ c ≠ '_' :=
        fun c hc => h c (List.mem_cons_of_mem a hc)
      cases cs with
      | nil =>
          simp only [List.cons_append]
          rw [likeMatch]
          simp [ha.1]
      | cons c cs' =>
          simp only [List.cons_append]
          rw [likeMatch]
          simp only [if_neg ha.1, if_neg ha.2,
            Bool.and_eq_true, beq_iff_eq]
          rw [ih hs cs']
          constructor
          · rintro ⟨rfl, r, rfl⟩
            exact ⟨r, rfl⟩
          · rintro ⟨r, hr⟩
            simp only [List.cons_append, List.cons.injEq] at hr
            exact ⟨hr.1.symm, r, hr.2⟩

theorem likeMatch_contains (s : List Char)
    (h : ∀ c ∈ s, c ≠ '%' ∧ c ≠ '_') (cs : List Char) :
    likeMatch ('%' :: (s ++ ['%'])) cs = true ↔
      ∃ t₁ t₂, cs = t₁ ++ s ++ t₂ := by
  rw [likeMatch_percent_cons]
  constructor
  · rintro ⟨t₁, t₂, rfl, hm⟩
    obtain ⟨r, rfl⟩ := (likeMatch_literal_percent s h t₂).mp hm
    exact ⟨t₁, r, by simp⟩
  · rintro ⟨t₁, t₂, rfl⟩
    exact ⟨t₁, s ++ t₂, by simp,
      (likeMatch_literal_percent s h (s ++ t₂)).mpr ⟨t₂, rfl⟩⟩

theorem char_toNat_ofNat (n : Nat) (h : n.isValidChar) :
    (Char.ofNat n).toNat = n := by
  simp [Char.ofNat, dif_pos h, Char.ofNatAux, Char.toNat, UInt32.toNat,
    BitVec.toNat_ofNatLt]

theorem toLower_ne_wild (c : Char) (h1 : c ≠ '%') (h2 : c ≠ '_') :
    Char.toLower c ≠ '%' ∧ Char.toLower c ≠ '_' := by
  by_cases h : c.toNat ≥ 65 ∧ c.toNat ≤ 90
  · have hlow : Char.toLower c = Char.ofNat (c.toNat + 32) := by
      simp [Char.toLower, h]
    have hv : (c.toNat + 32).isValidChar := by
      left
      omega
    rw [hlow]
    constructor
    · intro heq
      have hn := congrArg Char.toNat heq
      rw [char_toNat_ofNat _ hv] at hn
      have h37 : ('%').toNat = 37 := rfl
      rw [h37] at hn
      omega
    · intro heq
      have hn := congrArg Char.toNat heq
      rw [char_toNat_ofNat _ hv] at hn
      have h95 : ('_').toNat = 95 := rfl
      rw [h95] at hn
      omega
  · have hlow : Char.toLower c = c := by
      simp [Char.toLower, h]
    rw [hlow]
    exact ⟨h1, h2⟩

theorem likeMatch_threePercents (cs : List Char) :
    likeMatch ['%', '%', '%'] cs = true :=
  (likeMatch_percent_cons ['%', '%'] cs).mpr
    ⟨[], cs, rfl, (likeMatch_percent_cons ['%'] cs).mpr
      ⟨[], cs, rfl, likeMatch_percentOnly cs⟩⟩

/-- C10: the fuzzy search wraps the raw string in `%...%` and applies a
case-insensitive LIKE OR'd over name, contact and email.  Consequently a
search string containing LIKE wildcards is not matched literally — the
search `"%"` matches every record — while a wildcard-free search string is
matched exactly as a case-insensitive substring of one of the three
fields. -/
theorem fuzzy_search_semantics (q : String) (a : Appointment)
    (hw : ∀ c ∈ q.toList, c ≠ '%' ∧ c ≠ '_') :
    searchPattern q = "%" ++ q ++ "%" ∧
    filterSearch { search := some ("%") } a = true ∧
    (filterSearch { search := some q } a = true ↔
      ((∃ t₁ t₂, lowerStr a.name.toList = t₁ ++ lowerStr q.toList ++ t₂) ∨
        (∃ t₁ t₂, lowerStr a.contact.toList = t₁ ++ lowerStr q.toList ++ t₂) ∨
        (∃ t₁ t₂, lowerStr a.email.toList = t₁ ++ lowerStr q.toList ++ t₂))) := by
  refine ⟨rfl, ?_, ?_⟩
  · have hpat : lowerStr (searchPattern ("%")).toList = ['%', '%', '%'] := by
      decide
    simp only [filterSearch, if_neg (by decide : ¬ ("%" : String) = ""),
      Bool.or_eq_true]
    exact Or.inl (Or.inl (by rw [ilike, hpat]; exact likeMatch_threePercents _))
  · by_cases hq : q = ""
    · subst hq
      simp only [filterSearch, if_pos rfl]
      constructor
      · intro _
        exact Or.inl ⟨[], lowerStr a.name.toList, by simp [lowerStr]⟩
      · intro _
        rfl
    · have hperc : Char.toLower '%' = '%' := by decide
      have hpat : lowerStr (searchPattern q).toList =
          '%' :: (lowerStr q.toList ++ ['%']) := by
        simp [searchPattern, lowerStr, String.toList, hperc]
      have hlit : ∀ c ∈ lowerStr q.toList, c ≠ '%' ∧ c ≠ '_' := by
        intro c hc
        simp only [lowerStr, List.mem_map] at hc
        obtain ⟨c0, hc0, rfl⟩ := hc
        exact toLower_ne_wild c0 (hw c0 hc0).1 (hw c0 hc0).2
      simp only [filterSearch, if_neg hq, Bool.or_eq_true, ilike, hpat,
        likeMatch_contains (lowerStr q.toList) hlit]
      rw [or_assoc]

/-- Witness for C10: the wildcard search `"%"` matches the sample record,
and the wildcard-free search `"doe"` matches it through its name
`"Jane Doe"` (case-insensitively). -/
theorem fuzzy_search_semantics_witness :
    filterSearch { search := some ("%") } sampleApptPending = true ∧
    filterSearch { search := some ("doe") } sampleApptPending = true :=
  ⟨(fuzzy_search_semantics "doe" sampleApptPending (by decide)).2.1,
    (fuzzy_search_semantics "doe" sampleApptPending (by decide)).2.2.mpr
      (Or.inl ⟨("jane ").toList, [], by decide⟩)⟩
